import Mathlib

/-!
Shallow embedding of the Annotation Canvas Engine of
`src/v.0.7/BatchLabeledEditor.py`: the viewport transform (zoom/pan and
screen↔image coordinate conversion), the per-region effect compositor,
the label layout engine, the interaction state machine driven by mouse
and key events, and the region record serialization used by
`save_current` / `_load_current_image`.

Machine conventions of the source are made explicit: Python `int()` is
truncation toward zero (`pyInt`), floats are modelled as rationals,
and Python exceptions are modelled with `Option`/`Except`.  Calls into
the external libraries (`cv2` whole-image filters, `cv2.getTextSize`
font metrics, file I/O) are parameters of the definitions that use
them, exactly at the call boundary; all surrounding logic is translated
from the source.
-/

/-- Truncation toward zero: the semantics of Python's `int()` on a
rational (float) value. -/
def pyInt (q : ℚ) : ℤ := if q < 0 then ⌈q⌉ else ⌊q⌋

/-- The `EditMode` enumeration of the source, constructors in declaration
order (`list(EditMode)` order matters for the `1`-`7` mode-switch keys). -/
inductive EditMode where
  | highlight
  | blur
  | pixelate
  | darken
  | grayscale
  | invert
  | outline
deriving DecidableEq, Repr

/-- The string `.value` of each `EditMode` member. -/
def EditMode.value : EditMode → String
  | .highlight => "highlight"
  | .blur => "blur"
  | .pixelate => "pixelate"
  | .darken => "darken"
  | .grayscale => "grayscale"
  | .invert => "invert"
  | .outline => "outline"

/-- `list(EditMode)`: the members in declaration order, used by the
mode-switch keys `1`-`7` in `run`. -/
def editModeList : List EditMode :=
  [.highlight, .blur, .pixelate, .darken, .grayscale, .invert, .outline]

/-- The constructor `EditMode(value)`: returns the member whose `.value`
equals the string, or fails (`ValueError`) for any other string. -/
def editModeOfString (s : String) : Option EditMode :=
  editModeList.find? (fun m => m.value = s)

/-- A BGR pixel (a `uint8` triple). -/
abbrev Pix := ℕ × ℕ × ℕ

/-- An image buffer, as a pixel lookup on integer `(x, y)` coordinates. -/
abbrev Image := ℤ × ℤ → Pix

/-- `self.mode_colors`: the outline color of each mode (BGR). -/
def modeColor : EditMode → Pix
  | .highlight => (0, 255, 0)
  | .blur => (255, 0, 0)
  | .pixelate => (0, 0, 255)
  | .darken => (128, 128, 128)
  | .grayscale => (200, 200, 200)
  | .invert => (255, 255, 0)
  | .outline => (0, 255, 255)

/-- A committed region: one entry of `self.circles`
(`{'center': (x, y), 'radius': r, 'mode': m, 'label': s}`). -/
structure Region where
  center : ℤ × ℤ
  radius : ℤ
  mode : EditMode
  label : String
deriving DecidableEq, Repr

/-- `self.min_zoom` (set to `0.5` in `__init__`). -/
def min_zoom : ℚ := 1 / 2

/-- `self.max_zoom` (set to `10.0` in `__init__`). -/
def max_zoom : ℚ := 10

/-- `ZOOM_DEBOUNCE_MS` class constant. -/
def ZOOM_DEBOUNCE_MS : ℚ := 50

/-- The mutable editor/session state of `BatchLabeledEditor` relevant to
the Annotation Canvas Engine: viewport (zoom/pan), interaction flags,
the region store, the in-progress gesture data and the image buffers.
The two fields `editing_last` and `quitting` record the program counter
of the source: whether the blocking `_edit_last_label` sub-loop is
active, and whether `run`'s main loop was exited by the quit key. -/
structure EditorState where
  zoom_level : ℚ
  pan_x : ℤ
  pan_y : ℤ
  is_panning : Bool
  pan_start_x : ℤ
  pan_start_y : ℤ
  last_zoom_time : ℚ
  drawing : Bool
  center : ℤ × ℤ
  current_radius : ℤ
  label_input_mode : Bool
  current_label : String
  circles : List Region
  current_mode : EditMode
  show_labels : Bool
  scaled_image : Image
  output_image : Image
  editing_last : Bool
  quitting : Bool

/-- `_screen_to_image_coords`: divide by zoom after removing the pan,
truncated with `int()`. -/
def screen_to_image_coords (s : EditorState) (screen_x screen_y : ℤ) : ℤ × ℤ :=
  (pyInt ((screen_x - s.pan_x) / s.zoom_level),
   pyInt ((screen_y - s.pan_y) / s.zoom_level))

/-- `_image_to_screen_coords`: multiply by zoom and add the pan,
truncated with `int()`. -/
def image_to_screen_coords (s : EditorState) (img_x img_y : ℤ) : ℤ × ℤ :=
  (pyInt (img_x * s.zoom_level + s.pan_x),
   pyInt (img_y * s.zoom_level + s.pan_y))

/-- The mouse events dispatched by `_mouse_callback` (`cv2` event
codes); the wheel event carries the sign of `flags`. -/
inductive MouseEvent where
  | mousewheel (flagsPos : Bool)
  | rbuttondown
  | rbuttonup
  | mousemove
  | lbuttondown
  | lbuttonup
deriving DecidableEq, Repr

/-- `_mouse_callback`: zoom wheel (with debounce against `nowMs`, the
wall-clock. `time.time() * 1000`), pan gestures, and the drawing
gesture.  Display updates (`_update_display`) are rendering-only and do
not change this state. -/
def mouse_callback (s : EditorState) (ev : MouseEvent) (x y : ℤ) (nowMs : ℚ) :
    EditorState :=
  match ev with
  | .mousewheel flagsPos =>
      if nowMs - s.last_zoom_time < ZOOM_DEBOUNCE_MS then s
      else
        let zoom_factor : ℚ := if flagsPos then 11 / 10 else 9 / 10
        let new_zoom := max min_zoom (min max_zoom (s.zoom_level * zoom_factor))
        let img := screen_to_image_coords s x y
        { s with
          last_zoom_time := nowMs
          zoom_level := new_zoom
          pan_x := pyInt (x - img.1 * new_zoom)
          pan_y := pyInt (y - img.2 * new_zoom) }
  | .rbuttondown =>
      { s with is_panning := true, pan_start_x := x - s.pan_x,
               pan_start_y := y - s.pan_y }
  | .rbuttonup => { s with is_panning := false }
  | .mousemove =>
      if s.is_panning then
        { s with pan_x := x - s.pan_start_x, pan_y := y - s.pan_start_y }
      else if s.label_input_mode then s
      else if s.drawing then
        let img := screen_to_image_coords s x y
        { s with current_radius :=
            Int.ofNat (Nat.sqrt (((img.1 - s.center.1) ^ 2 +
                                  (img.2 - s.center.2) ^ 2).toNat)) }
      else s
  | .lbuttondown =>
      if s.label_input_mode || s.is_panning then s
      else
        { s with drawing := true, center := screen_to_image_coords s x y,
                 current_radius := 0 }
  | .lbuttonup =>
      if s.label_input_mode || s.is_panning then s
      else if s.drawing then
        if s.current_radius > 5 then
          -- `_enter_label_input_mode`
          { s with drawing := false, label_input_mode := true,
                   current_label := "" }
        else
          { s with drawing := false }
      else s

/-- Membership in the filled circular mask built by
`cv2.circle(mask, center, radius, 255, -1)` in `_apply_effect`:
squared distance from the center at most `radius²`. -/
def inMask (c : Region) (p : ℤ × ℤ) : Bool :=
  (p.1 - c.center.1) ^ 2 + (p.2 - c.center.2) ^ 2 ≤ c.radius ^ 2

/-- Membership in the thickness-2 circle border drawn by
`cv2.circle(image, center, radius, color, 2)` in `_apply_all_effects`:
squared distance within `[(radius-1)², (radius+1)²]`. -/
def onOutline (c : Region) (p : ℤ × ℤ) : Bool :=
  decide ((c.radius - 1) ^ 2 ≤ (p.1 - c.center.1) ^ 2 + (p.2 - c.center.2) ^ 2) &&
  decide ((p.1 - c.center.1) ^ 2 + (p.2 - c.center.2) ^ 2 ≤ (c.radius + 1) ^ 2)

/-- The family of whole-image effect transforms dispatched on the mode
inside `_apply_effect` (`cv2.addWeighted` toward white / black,
`cv2.GaussianBlur`, the nearest-neighbor `cv2.resize` pair,
`cv2.cvtColor` grayscale round-trip, `cv2.bitwise_not`).  Each is an
external `cv2`/`numpy` call computing a fully transformed version of the
*whole* current image; `none` models the call raising an exception.  The
compositor is parametric in this family at that call boundary. -/
abbrev TransformFamily := EditMode → Image → Option Image

/-- `_apply_effect`: build the circular mask, compute the fully
transformed image for the region's mode, and replace masked pixels
(`np.where(mask == 255, transformed, image)`).  `OUTLINE` matches no
branch, so the pixels are untouched.  A raise inside the `try` block is
caught, a diagnostic is printed, and the input image is returned
unchanged. -/
def apply_effect (T : TransformFamily) (image : Image) (c : Region) : Image :=
  match c.mode with
  | .outline => image
  | m =>
      match T m image with
      | some transformed => fun p => if inMask c p then transformed p else image p
      | none => image

/-- The `cv2.circle(..., color, 2)` border drawing step of
`_apply_all_effects`. -/
def draw_circle_border (c : Region) (img : Image) : Image :=
  fun p => if onOutline c p then modeColor c.mode else img p

/-- `_apply_all_effects`: start from the pristine scaled image and, for
each region in store order, apply its effect to the accumulated image
and then draw its circle border over the accumulator. -/
def apply_all_effects (T : TransformFamily) (src : Image)
    (circles : List Region) : Image :=
  circles.foldl (fun acc c => draw_circle_border c (apply_effect T acc c)) src

/-- One JSON object record as written by `save_current` into
`labels_data['objects']` (all five fields always present). -/
structure ObjectRecord where
  id : ℕ
  label : String
  mode : String
  center : ℤ × ℤ
  radius : ℤ
deriving DecidableEq, Repr

/-- `save_current`: the export record of a region at 1-based position
`idx` (`enumerate(self.circles, 1)`). -/
def serialize_object (idx : ℕ) (c : Region) : ObjectRecord :=
  { id := idx, label := c.label, mode := c.mode.value,
    center := c.center, radius := c.radius }

/-- A persisted JSON object as read back by `_load_current_image`: any
field may be absent from the parsed dictionary. -/
structure PersistedObject where
  id : Option ℕ
  label : Option String
  mode : Option String
  center : Option (ℤ × ℤ)
  radius : Option ℤ
deriving DecidableEq, Repr

/-- A freshly serialized record viewed as a persisted dictionary (all
fields present). -/
def ObjectRecord.toPersisted (r : ObjectRecord) : PersistedObject :=
  { id := some r.id, label := some r.label, mode := some r.mode,
    center := some r.center, radius := some r.radius }

/-- The per-object body of the restore loop in `_load_current_image`:
`obj.get('mode', 'highlight')` falls back to `'highlight'` when the key
is missing and to `EditMode.HIGHLIGHT` when the string is unrecognized
(`except ValueError`); `obj.get('label', '')` falls back to the empty
string; `obj['center']` and `obj['radius']` raise `KeyError` when
missing (modelled by `throw`). -/
def parse_object (obj : PersistedObject) : Except Unit Region :=
  let mode_value := obj.mode.getD "highlight"
  let mode := (editModeOfString mode_value).getD .highlight
  match obj.center, obj.radius with
  | some c, some r =>
      .ok { center := c, radius := r, mode := mode, label := obj.label.getD "" }
  | _, _ => .error ()

/-- The restore loop of `_load_current_image` over `data['objects']`:
records are appended in order; any exception is caught by the
surrounding `except` clause, which prints a diagnostic and resets
`self.circles = []`, discarding everything loaded so far. -/
def load_objects (objs : List PersistedObject) : List Region :=
  match objs.mapM parse_object with
  | .ok cs => cs
  | .error _ => []

/-- An axis-aligned label rectangle `(x1, y1, x2, y2)`. -/
structure LabelRect where
  x1 : ℤ
  y1 : ℤ
  x2 : ℤ
  y2 : ℤ
deriving DecidableEq, Repr

/-- The per-rectangle test inside `_check_label_collision` with its 5px
`buffer`: `true` when the two rectangles are not separated by more than
the buffer on some axis. -/
def rects_collide (r ex : LabelRect) : Bool :=
  !(r.x2 + 5 < ex.x1 || r.x1 - 5 > ex.x2 || r.y2 + 5 < ex.y1 || r.y1 - 5 > ex.y2)

/-- `_check_label_collision`: whether the new rectangle collides with
any previously placed rectangle. -/
def check_label_collision (new_rect : LabelRect)
    (existing_rects : List LabelRect) : Bool :=
  existing_rects.any (fun ex => rects_collide new_rect ex)

/-- `_get_dynamic_label_params`: font scale and thickness stepped by the
smaller dimension of `(h, w)`. -/
def get_dynamic_label_params (image_size : ℤ × ℤ) : ℚ × ℕ :=
  let min_dimension := min image_size.1 image_size.2
  if min_dimension < 200 then (3 / 10, 1)
  else if min_dimension < 400 then (2 / 5, 1)
  else if min_dimension < 800 then (1 / 2, 2)
  else (3 / 5, 2)

/-- The label rectangle formula of `_find_non_overlapping_position`. -/
def label_rect_at (pos_x label_y text_w text_h baseline padding : ℤ) : LabelRect :=
  { x1 := pos_x - padding, y1 := label_y - text_h - padding,
    x2 := pos_x + text_w + padding, y2 := label_y + baseline + padding }

/-- The in-image-bounds test of `_find_non_overlapping_position`. -/
def rect_in_bounds (r : LabelRect) (img_w img_h padding : ℤ) : Bool :=
  decide (r.x1 ≥ padding) && decide (r.y1 ≥ padding) &&
  decide (r.x2 ≤ img_w - padding) && decide (r.y2 ≤ img_h - padding)

/-- The eight `attempts` base anchor positions (above, below, left,
right and the four diagonals of the circle).  `//` is Python floor
division. -/
def label_attempts (center : ℤ × ℤ) (radius total_width total_height : ℤ) :
    List (ℤ × ℤ) :=
  [ (center.1 - radius, center.2 - radius - total_height - 10),
    (center.1 - radius, center.2 + radius + 20),
    (center.1 - radius - total_width - 10, center.2 - Int.fdiv total_height 2),
    (center.1 + radius + 10, center.2 - Int.fdiv total_height 2),
    (center.1 + radius + 10, center.2 - radius - total_height - 10),
    (center.1 - radius - total_width - 10, center.2 - radius - total_height - 10),
    (center.1 + radius + 10, center.2 + radius + 20),
    (center.1 - radius - total_width - 10, center.2 + radius + 20) ]

/-- The expanding offset rings of the search loop. -/
def label_offsets : List ℤ := [0, 30, 60, 90, 120]

/-- The full candidate scan order of `_find_non_overlapping_position`:
`for offset` / `for base in attempts` / `for dx in [0, offset, -offset]`
/ `for dy in [0, offset, -offset]`. -/
def candidate_positions (center : ℤ × ℤ)
    (radius total_width total_height : ℤ) : List (ℤ × ℤ) :=
  label_offsets.flatMap (fun off =>
    (label_attempts center radius total_width total_height).flatMap (fun base =>
      ([0, off, -off] : List ℤ).flatMap (fun dx =>
        ([0, off, -off] : List ℤ).map (fun dy => (base.1 + dx, base.2 + dy)))))

/-- The searching part of `_find_non_overlapping_position`: the first
candidate (in scan order) whose rectangle lies within the image bounds
and does not collide with any previously placed rectangle; `none` when
the whole scan fails. -/
def search_label_position (center : ℤ × ℤ)
    (radius text_w text_h baseline padding : ℤ) (image_size : ℤ × ℤ)
    (existing_rects : List LabelRect) : Option (ℤ × ℤ × LabelRect) :=
  let img_h := image_size.1
  let img_w := image_size.2
  let total_width := text_w + 2 * padding
  let total_height := text_h + baseline + 2 * padding
  (candidate_positions center radius total_width total_height).findSome?
    (fun pos =>
      let pos_x := pos.1
      let label_y := pos.2 + text_h
      let r := label_rect_at pos_x label_y text_w text_h baseline padding
      if rect_in_bounds r img_w img_h padding &&
         !check_label_collision r existing_rects
      then some (pos_x, label_y, r) else none)

/-- `_find_non_overlapping_position`: the search result when some
candidate succeeds, otherwise the last-resort placement clamped
horizontally and put at the top of the image. -/
def find_non_overlapping_position (center : ℤ × ℤ)
    (radius text_w text_h baseline padding : ℤ) (image_size : ℤ × ℤ)
    (existing_rects : List LabelRect) : ℤ × ℤ × LabelRect :=
  match search_label_position center radius text_w text_h baseline padding
      image_size existing_rects with
  | some res => res
  | none =>
      let img_w := image_size.2
      let total_width := text_w + 2 * padding
      let pos_x := max padding (min center.1 (img_w - total_width - padding))
      let label_y := padding + text_h
      (pos_x, label_y, label_rect_at pos_x label_y text_w text_h baseline padding)

/-- `circle['mode'].value[:3].upper()`: the 3-letter mode code (the
Python slice and upper-casing builtins, on the character list). -/
def mode_short (m : EditMode) : String :=
  ⟨(m.value.data.take 3).map Char.toUpper⟩

/-- The formatted label text of `_draw_all_labels_smart`:
`f"#{idx} [{mode_short}] {label}"` with the 1-based store position. -/
def full_label_text (idx : ℕ) (c : Region) : String :=
  "#" ++ toString idx ++ " [" ++ mode_short c.mode ++ "] " ++ c.label

/-- `padding = max(2, int(4 * label_scale / 0.5))`. -/
def label_padding (label_scale : ℚ) : ℤ :=
  max 2 (pyInt (4 * label_scale / (1 / 2)))

/-- `cv2.getTextSize(text, font, scale, thickness)`: the external font
metric call, returning `(text_w, text_h, baseline)`. -/
abbrev TextMeasure := String → ℚ → ℕ → ℤ × ℤ × ℤ

/-- Everything `_draw_all_labels_smart` draws for one labeled region:
the background/border rectangle, the text with its position, and the
connector line.  `from_search` additionally records whether the
placement came from the candidate search or from the last-resort
fallback of `_find_non_overlapping_position`. -/
structure LabelPlacement where
  idx : ℕ
  text : String
  label_x : ℤ
  label_y : ℤ
  rect : LabelRect
  color : Pix
  connector_from : ℤ × ℤ
  connector_to : ℤ × ℤ
  from_search : Bool
deriving DecidableEq, Repr

/-- The `for idx, circle in enumerate(self.circles, 1)` loop of
`_draw_all_labels_smart`: regions with an empty label are skipped
(`continue`) but still advance the index; every chosen rectangle is
appended to `existing_rects` before the next region is processed. -/
def draw_labels_aux (measure : TextMeasure) (image_size : ℤ × ℤ)
    (label_scale : ℚ) (label_thickness : ℕ) :
    ℕ → List LabelRect → List Region → List LabelPlacement
  | _, _, [] => []
  | idx, existing_rects, c :: rest =>
    if c.label = "" then
      draw_labels_aux measure image_size label_scale label_thickness
        (idx + 1) existing_rects rest
    else
      let full := full_label_text idx c
      let m := measure full label_scale label_thickness
      let text_w := m.1
      let text_h := m.2.1
      let baseline := m.2.2
      let padding := label_padding label_scale
      let res := find_non_overlapping_position c.center c.radius
        text_w text_h baseline padding image_size existing_rects
      let pl : LabelPlacement :=
        { idx := idx, text := full, label_x := res.1, label_y := res.2.1,
          rect := res.2.2, color := modeColor c.mode,
          connector_from := (res.1 + Int.fdiv text_w 2, res.2.1 + baseline + padding),
          connector_to := c.center,
          from_search := (search_label_position c.center c.radius
            text_w text_h baseline padding image_size existing_rects).isSome }
      pl :: draw_labels_aux measure image_size label_scale label_thickness
        (idx + 1) (existing_rects ++ [res.2.2]) rest

/-- `_draw_all_labels_smart`: no drawing at all when labels are toggled
off; otherwise one placement per labeled region, processed in store
order starting from an empty `existing_rects` list.  `image_size` is
`(img_h, img_w)` from `image.shape[:2]`. -/
def draw_all_labels_smart (measure : TextMeasure) (image_size : ℤ × ℤ)
    (show_labels : Bool) (circles : List Region) : List LabelPlacement :=
  if !show_labels then []
  else
    let params := get_dynamic_label_params image_size
    draw_labels_aux measure image_size params.1 params.2 1 [] circles

/-- The `blur_kernel` property setter: raises (`none`) unless the value
is a positive odd integer. -/
def set_blur_kernel (value : ℤ) : Option ℤ :=
  if value ≤ 0 then none
  else if value % 2 = 0 then none
  else some value

/-- The backing field `_blur_kernel` after an attempted assignment
`self.blur_kernel = value` starting from current value `cur`: a raising
setter leaves the field unchanged. -/
def blur_kernel_after (cur value : ℤ) : ℤ := (set_blur_kernel value).getD cur

/-- The `pixelate_size` property setter: raises (`none`) unless the
value is positive. -/
def set_pixelate_size (value : ℤ) : Option ℤ :=
  if value ≤ 0 then none else some value

/-- The backing field `_pixelate_size` after an attempted assignment. -/
def pixelate_size_after (cur value : ℤ) : ℤ := (set_pixelate_size value).getD cur

/-- `self._blur_kernel = 25` in `__init__`. -/
def default_blur_kernel : ℤ := 25

/-- Python's `str.strip()` (no argument): drop whitespace from both
ends.  The external string builtin used when committing a label. -/
def pyStrip (s : String) : String :=
  ⟨((s.data.dropWhile Char.isWhitespace).reverse.dropWhile
      Char.isWhitespace).reverse⟩

/-- Python's `label[:-1]` (backspace handling). -/
def dropLastChar (s : String) : String := ⟨s.data.dropLast⟩

/-- `_exit_label_input_mode` (description mode removed in this
version): leave label input; on save, strip the typed buffer, append
the new region to the store and rebuild the composite; on cancel,
discard the gesture.  Either way the buffer is cleared. -/
def exit_label_input_mode (T : TransformFamily) (s : EditorState)
    (save : Bool) : EditorState :=
  if save then
    let label := pyStrip s.current_label
    let newCircles := s.circles ++
      [{ center := s.center, radius := s.current_radius,
         mode := s.current_mode, label := label }]
    { s with label_input_mode := false, circles := newCircles,
             output_image := apply_all_effects T s.scaled_image newCircles,
             current_label := "" }
  else
    { s with label_input_mode := false, current_label := "" }

/-- The file-system collaborators invoked by navigation, save and quit:
`_load_current_image` after an index change, and the disk/JSON side of
`save_current`.  These are external I/O and are parameters of the key
loop. -/
structure ExternalOps where
  load_prev : EditorState → EditorState
  load_next : EditorState → EditorState
  save : EditorState → EditorState

/-- `_previous_image`: rejected with a diagnostic while drawing or in
label input; otherwise auto-save and reload are file I/O delegated to
the collaborator. -/
def previous_image (ext : ExternalOps) (s : EditorState) : EditorState :=
  if s.drawing || s.label_input_mode then s else ext.load_prev s

/-- `_next_image`: rejected with a diagnostic while drawing or in label
input; otherwise delegated like `_previous_image`. -/
def next_image (ext : ExternalOps) (s : EditorState) : EditorState :=
  if s.drawing || s.label_input_mode then s else ext.load_next s

/-- One iteration of the key dispatch in `run` (`cv2.waitKey(1) & 0xFF`
codes).  The label-input branch is checked first and consumes the key;
while the blocking `_edit_last_label` sub-loop is active
(`editing_last`), ESC cancels the edit and ENTER rewrites the last
region's label, with otherwise identical typing behaviour.  Keys `l`,
`m`, `h`/`F1` only print; display updates do not change this state.
After `q` (`quitting`) the loop has exited and further keys are
ignored. -/
def proc_key (T : TransformFamily) (ext : ExternalOps) (s : EditorState)
    (key : ℕ) : EditorState :=
  if s.quitting then s
  else if s.label_input_mode then
    if key = 27 then
      if s.editing_last then
        { s with label_input_mode := false, editing_last := false,
                 current_label := "" }
      else exit_label_input_mode T s false
    else if key = 13 then
      if s.editing_last then
        match s.circles.getLast? with
        | some last =>
            let newCircles := s.circles.dropLast ++
              [{ last with label := pyStrip s.current_label }]
            { s with circles := newCircles,
                     output_image := apply_all_effects T s.scaled_image newCircles,
                     label_input_mode := false, editing_last := false,
                     current_label := "" }
        | none =>
            { s with label_input_mode := false, editing_last := false,
                     current_label := "" }
      else exit_label_input_mode T s true
    else if key = 8 then
      { s with current_label := dropLastChar s.current_label }
    else if 32 ≤ key ∧ key ≤ 126 then
      { s with current_label := s.current_label.push (Char.ofNat key) }
    else s
  else if key = 97 ∨ key = 65 then previous_image ext s
  else if key = 100 ∨ key = 68 then next_image ext s
  else if key = 114 ∨ key = 82 then
    { s with zoom_level := 1, pan_x := 0, pan_y := 0 }
  else if key = 115 then ext.save s
  else if key = 83 then next_image ext (ext.save s)
  else if key = 99 ∨ key = 67 then
    { s with circles := [], output_image := s.scaled_image }
  else if key = 117 ∨ key = 85 then
    match s.circles.getLast? with
    | some _ =>
        let newCircles := s.circles.dropLast
        { s with circles := newCircles,
                 output_image := apply_all_effects T s.scaled_image newCircles }
    | none => s
  else if key = 108 ∨ key = 76 then s
  else if key = 101 ∨ key = 69 then
    match s.circles.getLast? with
    | some last =>
        { s with current_label := last.label, label_input_mode := true,
                 editing_last := true }
    | none => s
  else if key = 116 ∨ key = 84 then { s with show_labels := !s.show_labels }
  else if key = 109 ∨ key = 77 then s
  else if key = 104 ∨ key = 72 ∨ key = 0 then s
  else if 49 ≤ key ∧ key ≤ 55 then
    { s with current_mode := editModeList.getD (key - 49) s.current_mode }
  else if key = 113 ∨ key = 81 then
    { (if s.circles.isEmpty then s else ext.save s) with quitting := true }
  else s

/-- The key-event half of `run`'s main loop over a finite event
sequence. -/
def run_keys (T : TransformFamily) (ext : ExternalOps) (s : EditorState)
    (keys : List ℕ) : EditorState :=
  keys.foldl (proc_key T ext) s

/-- Python's `enumerate(circles, 1)`: pair each region with its 1-based
store position. -/
def enumFrom : ℕ → List Region → List (ℕ × Region)
  | _, [] => []
  | n, c :: cs => (n, c) :: enumFrom (n + 1) cs

/-! ### Sample data used by concrete witnesses and counterexamples -/

/-- A constant black test image. -/
def blackImage : Image := fun _ => (0, 0, 0)

/-- A transform family in which every `cv2` call succeeds and returns
the image unchanged. -/
def idTransform : TransformFamily := fun _ img => some img

/-- A transform family in which every `cv2` call raises. -/
def noTransform : TransformFamily := fun _ _ => none

/-- A transform family in which every `cv2` call succeeds with a
constant image. -/
def oneTransform : TransformFamily := fun _ _ => some (fun _ => (1, 1, 1))

/-- External file-system collaborators that do nothing. -/
def extId : ExternalOps := { load_prev := id, load_next := id, save := id }

/-- A darken region overlapping `cB`. -/
def cA : Region :=
  { center := (10, 10), radius := 8, mode := .darken, label := "" }

/-- An invert region overlapping `cA`. -/
def cB : Region :=
  { center := (14, 10), radius := 8, mode := .invert, label := "x" }

/-- A blur region used to exercise a raising transform. -/
def cBad : Region :=
  { center := (10, 10), radius := 6, mode := .blur, label := "" }

/-- A labeled region well inside a 500×500 image. -/
def cLab : Region :=
  { center := (200, 200), radius := 50, mode := .blur, label := "face" }

/-- A second labeled region, overlapping `cLab`. -/
def cLab2 : Region :=
  { center := (210, 200), radius := 50, mode := .highlight, label := "eye" }

/-- A fixed font metric: every string measures 40×10 with baseline 3. -/
def measFix : TextMeasure := fun _ _ _ => (40, 10, 3)

/-- The placement computed for `cLab` at store position 2 in a 500×500
redraw with `measFix`. -/
def plFace : LabelPlacement :=
  { idx := 2, text := "#2 [BLU] face", label_x := 150, label_y := 129,
    rect := ⟨146, 115, 194, 136⟩, color := (255, 0, 0),
    connector_from := (170, 136), connector_to := (200, 200),
    from_search := true }

/-- The placement computed for `cLab2` at store position 3 in the same
redraw, pushed away from `plFace`'s rectangle. -/
def plEye : LabelPlacement :=
  { idx := 3, text := "#3 [HIG] eye", label_x := 160, label_y := 280,
    rect := ⟨156, 266, 204, 287⟩, color := (0, 255, 0),
    connector_from := (180, 287), connector_to := (210, 200),
    from_search := true }

/-- A well-formed persisted record (`blur`, all fields present). -/
def goodObj : PersistedObject :=
  { id := some 1, label := some "face", mode := some "blur",
    center := some (100, 100), radius := some 50 }

/-- A persisted record with the `center` field missing. -/
def badObj : PersistedObject :=
  { id := some 2, label := some "eye", mode := some "darken",
    center := none, radius := some 10 }

/-- A second well-formed persisted record (unrecognized mode string). -/
def goodObj2 : PersistedObject :=
  { id := some 3, label := none, mode := some "sepia",
    center := some (30, 40), radius := some 9 }

/-- A freshly loaded session state (`zoom 1.0`, origin pan, `Idle`,
empty store, `HIGHLIGHT` mode), as after `_load_current_image`. -/
def sampleState : EditorState :=
  { zoom_level := 1, pan_x := 0, pan_y := 0, is_panning := false,
    pan_start_x := 0, pan_start_y := 0, last_zoom_time := 0,
    drawing := false, center := (0, 0), current_radius := 0,
    label_input_mode := false, current_label := "",
    circles := [], current_mode := .highlight, show_labels := true,
    scaled_image := blackImage, output_image := blackImage,
    editing_last := false, quitting := false }

/-! ## Theorems -/

/-- Truncation toward zero moves a rational by strictly less than 1. -/
theorem pyInt_err (q : ℚ) : |(pyInt q : ℚ) - q| < 1 := by
  unfold pyInt
  split
  · rw [abs_sub_lt_iff]
    constructor
    · linarith [Int.ceil_lt_add_one q]
    · linarith [Int.le_ceil q]
  · rw [abs_sub_lt_iff]
    constructor
    · linarith [Int.floor_le q]
    · linarith [Int.sub_one_lt_floor q]

/-- Re-anchoring bound: truncating the pan recomputed from a truncated
image point puts the round-tripped screen coordinate within one pixel
of the original. -/
theorem anchor_bound (x : ℤ) (f : ℚ) :
    |pyInt (f + (pyInt ((x : ℚ) - f) : ℚ)) - x| ≤ 1 := by
  have h1 := pyInt_err ((x : ℚ) - f)
  have h2 := pyInt_err (f + (pyInt ((x : ℚ) - f) : ℚ))
  have h3 : |((pyInt (f + (pyInt ((x : ℚ) - f) : ℚ)) : ℤ) : ℚ) - (x : ℚ)| < 2 := by
    have htri := abs_sub_le
      ((pyInt (f + (pyInt ((x : ℚ) - f) : ℚ)) : ℚ))
      (f + (pyInt ((x : ℚ) - f) : ℚ)) ((x : ℚ))
    have heq : (f + ((pyInt ((x : ℚ) - f) : ℤ) : ℚ)) - (x : ℚ) =
        ((pyInt ((x : ℚ) - f) : ℤ) : ℚ) - ((x : ℚ) - f) := by ring
    rw [heq] at htri
    calc |((pyInt (f + (pyInt ((x : ℚ) - f) : ℚ)) : ℤ) : ℚ) - (x : ℚ)| ≤ _ := htri
      _ < 1 + 1 := by exact add_lt_add h2 h1
      _ = 2 := by norm_num
  have h4 : |pyInt (f + (pyInt ((x : ℚ) - f) : ℚ)) - x| < 2 := by
    have := h3
    rw [show ((pyInt (f + (pyInt ((x : ℚ) - f) : ℚ)) : ℤ) : ℚ) - (x : ℚ) =
        ((pyInt (f + (pyInt ((x : ℚ) - f) : ℚ)) - x : ℤ) : ℚ) by push_cast; ring]
      at this
    rw [← Int.cast_abs] at this
    exact_mod_cast this
  have h5 := abs_lt.mp h4
  exact abs_le.mpr ⟨by omega, by omega⟩

/-- C1: for every viewport state with zoom in `[min_zoom, max_zoom]` and
every (non-debounced) scroll event at screen point `(x, y)`, the
image-space point under `(x, y)` before the zoom maps back to `(x, y)`
within 1 pixel of integer rounding; the handler computes the image point
with the old state and recomputes the pan as
`pan' = (x - img_x * zoom', y - img_y * zoom')`. -/
theorem C1_zoom_anchor_invariance (s : EditorState) (x y : ℤ) (up : Bool)
    (nowMs : ℚ)
    (hz1 : min_zoom ≤ s.zoom_level) (hz2 : s.zoom_level ≤ max_zoom)
    (hdb : ZOOM_DEBOUNCE_MS ≤ nowMs - s.last_zoom_time) :
    |(image_to_screen_coords (mouse_callback s (.mousewheel up) x y nowMs)
        (screen_to_image_coords s x y).1
        (screen_to_image_coords s x y).2).1 - x| ≤ 1 ∧
    |(image_to_screen_coords (mouse_callback s (.mousewheel up) x y nowMs)
        (screen_to_image_coords s x y).1
        (screen_to_image_coords s x y).2).2 - y| ≤ 1 ∧
    (mouse_callback s (.mousewheel up) x y nowMs).pan_x =
      pyInt ((x : ℚ) - (screen_to_image_coords s x y).1 *
        (mouse_callback s (.mousewheel up) x y nowMs).zoom_level) ∧
    (mouse_callback s (.mousewheel up) x y nowMs).pan_y =
      pyInt ((y : ℚ) - (screen_to_image_coords s x y).2 *
        (mouse_callback s (.mousewheel up) x y nowMs).zoom_level) := by
  have hnd : ¬(nowMs - s.last_zoom_time < ZOOM_DEBOUNCE_MS) := not_lt.mpr hdb
  simp only [mouse_callback, hnd, if_false, image_to_screen_coords]
  refine ⟨?_, ?_, trivial, trivial⟩
  · exact anchor_bound x _
  · exact anchor_bound y _

/-- C1 witness: concrete scroll-zoom at screen point `(200, 100)` from
the freshly loaded state. -/
theorem C1_zoom_anchor_invariance_witness :
    ZOOM_DEBOUNCE_MS ≤ (100 : ℚ) - sampleState.last_zoom_time ∧
    |(image_to_screen_coords
        (mouse_callback sampleState (.mousewheel true) 200 100 100)
        (screen_to_image_coords sampleState 200 100).1
        (screen_to_image_coords sampleState 200 100).2).1 - 200| ≤ 1 :=
  ⟨by norm_num [ZOOM_DEBOUNCE_MS, sampleState],
   (C1_zoom_anchor_invariance sampleState 200 100 true 100
      (by norm_num [min_zoom, sampleState])
      (by norm_num [max_zoom, sampleState])
      (by norm_num [ZOOM_DEBOUNCE_MS, sampleState])).1⟩

/-- C8: an even or non-positive blur kernel value and a non-positive
pixelate block factor are rejected synchronously by the property
setters, leaving the previous valid value in effect; in particular
setting the kernel to 24 is rejected and the kernel stays at the
default 25. -/
theorem C8_invalid_effect_parameter :
    (∀ cur value : ℤ, (value ≤ 0 ∨ value % 2 = 0) →
      set_blur_kernel value = none ∧ blur_kernel_after cur value = cur) ∧
    (∀ cur value : ℤ, value ≤ 0 →
      set_pixelate_size value = none ∧ pixelate_size_after cur value = cur) ∧
    set_blur_kernel 24 = none ∧
    blur_kernel_after default_blur_kernel 24 = 25 := by
  refine ⟨?_, ?_, by decide, by decide⟩
  · intro cur value h
    have hn : set_blur_kernel value = none := by
      unfold set_blur_kernel
      rcases h with h | h
      · rw [if_pos h]
      · by_cases h0 : value ≤ 0
        · rw [if_pos h0]
        · rw [if_neg h0, if_pos h]
    exact ⟨hn, by unfold blur_kernel_after; rw [hn]; rfl⟩
  · intro cur value h
    have hn : set_pixelate_size value = none := by
      unfold set_pixelate_size
      rw [if_pos h]
    exact ⟨hn, by unfold pixelate_size_after; rw [hn]; rfl⟩

/-- C8 witness: the scenario of the spec, kernel 24 against current
value 25. -/
theorem C8_invalid_effect_parameter_witness :
    ((24 : ℤ) ≤ 0 ∨ (24 : ℤ) % 2 = 0) ∧ blur_kernel_after 25 24 = 25 :=
  ⟨by decide, (C8_invalid_effect_parameter.1 25 24 (by decide)).2⟩

/-- A string all of whose characters are whitespace strips to the empty
string under Python `str.strip()` semantics. -/
theorem pyStrip_all_whitespace (s : String)
    (h : s.data.all Char.isWhitespace = true) : pyStrip s = "" := by
  unfold pyStrip
  have h1 : s.data.dropWhile Char.isWhitespace = [] := by
    rw [List.dropWhile_eq_nil_iff]
    intro x hx
    exact List.all_eq_true.mp h x hx
  rw [h1]
  rfl

/-- C9: committing on ENTER stores the typed buffer with leading and
trailing whitespace stripped; an all-whitespace buffer commits an
unlabeled (empty-label) region. -/
theorem C9_label_stripped_on_commit (T : TransformFamily) (s : EditorState) :
    (exit_label_input_mode T s true).circles =
      s.circles ++ [{ center := s.center, radius := s.current_radius,
                      mode := s.current_mode,
                      label := pyStrip s.current_label }] ∧
    (s.current_label.data.all Char.isWhitespace = true →
      (exit_label_input_mode T s true).circles =
        s.circles ++ [{ center := s.center, radius := s.current_radius,
                        mode := s.current_mode, label := "" }]) := by
  constructor
  · simp [exit_label_input_mode]
  · intro h
    simp [exit_label_input_mode, pyStrip_all_whitespace s.current_label h]

/-- C9 witness: an all-whitespace buffer `"  "` commits an unlabeled
region from the fresh state. -/
theorem C9_label_stripped_on_commit_witness :
    ("  ".data.all Char.isWhitespace = true) ∧
    (exit_label_input_mode idTransform
        { sampleState with current_label := "  " } true).circles =
      sampleState.circles ++
        [{ center := sampleState.center, radius := sampleState.current_radius,
           mode := sampleState.current_mode, label := "" }] :=
  ⟨by decide,
   (C9_label_stripped_on_commit idTransform
      { sampleState with current_label := "  " }).2 (by decide)⟩

/-- `EditMode(m.value)` recovers the member: the seven mode strings are
parsed back exactly. -/
theorem editModeOfString_value (m : EditMode) :
    editModeOfString m.value = some m := by
  cases m <;> rfl

/-- C3: deserializing the serialized export record of a committed region
reproduces `center`, `radius`, `mode` and `label` exactly (the written
`id` is ignored on read); and any record whose mode string is not one of
the seven known lowercase mode names deserializes to `Highlight` instead
of failing. -/
theorem C3_record_round_trip :
    (∀ (idx : ℕ) (c : Region),
      parse_object (serialize_object idx c).toPersisted = .ok c) ∧
    (∀ (obj : PersistedObject) (ctr : ℤ × ℤ) (rad : ℤ) (ms : String),
      obj.center = some ctr → obj.radius = some rad →
      obj.mode = some ms → editModeOfString ms = none →
      parse_object obj =
        .ok { center := ctr, radius := rad, mode := .highlight,
              label := obj.label.getD "" }) := by
  constructor
  · intro idx c
    simp [parse_object, serialize_object, ObjectRecord.toPersisted,
      editModeOfString_value]
  · intro obj ctr rad ms hc hr hm hunknown
    simp [parse_object, hc, hr, hm, hunknown]

/-- C3 witness: a concrete blur region round-trips through record
position 1, and an unknown mode string `"sepia"` reads back as
`Highlight`. -/
theorem C3_record_round_trip_witness :
    parse_object (serialize_object 1 cLab).toPersisted = .ok cLab ∧
    (goodObj2.mode = some "sepia" ∧ editModeOfString "sepia" = none) ∧
    parse_object goodObj2 =
      .ok { center := (30, 40), radius := 9, mode := .highlight,
            label := "" } :=
  ⟨C3_record_round_trip.1 1 cLab,
   ⟨rfl, by decide⟩,
   C3_record_round_trip.2 goodObj2 (30, 40) 9 "sepia" rfl rfl rfl (by decide)⟩

/-- C5 (amended): when every persisted record carries its `center` and
`radius`, the restore loop loads every record, substituting `Highlight`
for a missing or unrecognized mode and the empty string for a missing
label; but a record missing `center` or `radius` raises `KeyError`,
which aborts the whole restore and leaves the store empty — the
remaining records are *not* loaded. -/
theorem C5_malformed_record_defaults :
    (∀ objs : List PersistedObject,
      (∀ obj ∈ objs, obj.center ≠ none ∧ obj.radius ≠ none) →
      load_objects objs = objs.map (fun obj =>
        { center := obj.center.getD (0, 0), radius := obj.radius.getD 0,
          mode := (editModeOfString (obj.mode.getD "highlight")).getD .highlight,
          label := obj.label.getD "" })) ∧
    (∀ objs : List PersistedObject, ∀ obj ∈ objs,
      (obj.center = none ∨ obj.radius = none) → load_objects objs = []) := by
  have hparse : ∀ obj : PersistedObject, obj.center ≠ none → obj.radius ≠ none →
      parse_object obj = .ok
        { center := obj.center.getD (0, 0), radius := obj.radius.getD 0,
          mode := (editModeOfString (obj.mode.getD "highlight")).getD .highlight,
          label := obj.label.getD "" } := by
    intro obj hc hr
    rcases hcv : obj.center with _ | ctr
    · exact absurd hcv hc
    rcases hrv : obj.radius with _ | rad
    · exact absurd hrv hr
    simp [parse_object, hcv, hrv]
  have herr : ∀ obj : PersistedObject,
      (obj.center = none ∨ obj.radius = none) →
      parse_object obj = .error () := by
    intro obj h
    unfold parse_object
    rcases h with h | h
    · rw [h]
    · rw [h]
      rcases obj.center with _ | ctr <;> rfl
  constructor
  · intro objs h
    induction objs with
    | nil => rfl
    | cons a t ih =>
        have ha := h a (List.mem_cons_self a t)
        have hta : ∀ obj ∈ t, obj.center ≠ none ∧ obj.radius ≠ none :=
          fun obj hm => h obj (List.mem_cons_of_mem a hm)
        have iht := ih hta
        unfold load_objects at iht ⊢
        rw [List.mapM_cons, hparse a ha.1 ha.2]
        rcases hmt : t.mapM parse_object with e | cs
        · rw [hmt] at iht
          simp at iht
          subst iht
          simp [List.mapM, List.mapM.loop, pure, Except.pure] at hmt
        · rw [hmt] at iht
          simp at iht
          simp [bind, Except.bind, pure, Except.pure, iht]
  · intro objs obj hmem hbad
    unfold load_objects
    have : objs.mapM parse_object = .error () := by
      induction objs with
      | nil => exact absurd hmem (List.not_mem_nil obj)
      | cons a t ih =>
          rw [List.mapM_cons]
          rcases List.mem_cons.mp hmem with h | h
          · rw [h] at hbad
            rw [herr a hbad]
            rfl
          · rcases hpa : parse_object a with e | r
            · rfl
            · rw [ih h]
              rfl
    rw [this]

/-- C5 counterexample: a record list whose middle record lacks `center`
loads to an empty store — the well-formed first and last records are
not loaded — refuting that a malformed record only gets defaults while
the remaining records still load. -/
theorem C5_counterexample :
    badObj.center = none ∧
    load_objects [goodObj, badObj, goodObj2] = [] ∧
    load_objects [goodObj, goodObj2] =
      [{ center := (100, 100), radius := 50, mode := .blur, label := "face" },
       { center := (30, 40), radius := 9, mode := .highlight, label := "" }] := by
  refine ⟨rfl, by decide, by decide⟩

/-- C5 witness: the amended per-record defaults on a list whose records
all carry `center` and `radius` (one with an unknown mode string and a
missing label). -/
theorem C5_malformed_record_defaults_witness :
    (∀ obj ∈ [goodObj, goodObj2], obj.center ≠ none ∧ obj.radius ≠ none) ∧
    load_objects [goodObj, goodObj2] =
      [goodObj, goodObj2].map (fun obj =>
        { center := obj.center.getD (0, 0), radius := obj.radius.getD 0,
          mode := (editModeOfString (obj.mode.getD "highlight")).getD .highlight,
          label := obj.label.getD "" }) :=
  ⟨by decide, C5_malformed_record_defaults.1 [goodObj, goodObj2] (by decide)⟩

/-- Pointwise reading of the border drawing step. -/
theorem draw_circle_border_apply (c : Region) (img : Image) (p : ℤ × ℤ) :
    draw_circle_border c img p =
      if onOutline c p then modeColor c.mode else img p := rfl

/-- Pointwise reading of `_apply_effect` when the mode's transform
succeeds: masked pixels come from the transformed image. -/
theorem apply_effect_apply_some (T : TransformFamily) (img : Image)
    (c : Region) (t : Image) (hm : c.mode ≠ .outline)
    (h : T c.mode img = some t) (p : ℤ × ℤ) :
    apply_effect T img c p = if inMask c p then t p else img p := by
  cases hmode : c.mode
  case outline => exact absurd hmode hm
  all_goals
    rw [hmode] at h
    simp [apply_effect, hmode, h]

/-- C2: the compositor folds over the store in order, applying each
region's effect to the accumulated image (the result of all earlier
regions) and then drawing its border; hence at a pixel inside two
overlapping regions (and not on the later border), the composite shows
the later region's transform applied to the image accumulated after the
earlier region, not to the pristine source. -/
theorem C2_cumulative_compositing :
    (∀ (T : TransformFamily) (src : Image) (rs : List Region) (c : Region),
      apply_all_effects T src (rs ++ [c]) =
        draw_circle_border c (apply_effect T (apply_all_effects T src rs) c)) ∧
    (∀ (T : TransformFamily) (src : Image) (c1 c2 : Region) (t2 : Image)
       (p : ℤ × ℤ),
      inMask c1 p = true → inMask c2 p = true →
      onOutline c2 p = false → c2.mode ≠ .outline →
      T c2.mode (draw_circle_border c1 (apply_effect T src c1)) = some t2 →
      apply_all_effects T src [c1, c2] p = t2 p) := by
  constructor
  · intro T src rs c
    unfold apply_all_effects
    rw [List.foldl_append]
    rfl
  · intro T src c1 c2 t2 p h1 h2 h3 hne h5
    show draw_circle_border c2
      (apply_effect T (draw_circle_border c1 (apply_effect T src c1)) c2) p = t2 p
    rw [draw_circle_border_apply, h3,
      apply_effect_apply_some T _ c2 t2 hne h5, h2]
    simp

/-- C2 witness: the overlap pixel `(12, 10)` of the concrete overlapping
regions `cA` (earlier) and `cB` (later) shows `cB`'s transform of the
accumulated image. -/
theorem C2_cumulative_compositing_witness :
    inMask cA (12, 10) = true ∧ inMask cB (12, 10) = true ∧
    onOutline cB (12, 10) = false ∧
    apply_all_effects oneTransform blackImage [cA, cB] (12, 10) = (1, 1, 1) :=
  ⟨by decide, by decide, by decide,
   C2_cumulative_compositing.2 oneTransform blackImage cA cB
     (fun _ => (1, 1, 1)) (12, 10) (by decide) (by decide) (by decide)
     (by decide) rfl⟩

/-- C4 (amended): when a region's mask/transform raises during
compositing, its effect is skipped (the accumulator passes through
unchanged), a diagnostic is printed, and every remaining region is
still composited and outlined — but the failing region's own circle
border IS still drawn over the accumulator (the border drawing in
`_apply_all_effects` is outside the `try` of `_apply_effect`). -/
theorem C4_failing_region_skipped (T : TransformFamily) (src : Image)
    (rs1 rs2 : List Region) (bad : Region)
    (h : T bad.mode (apply_all_effects T src rs1) = none) :
    apply_all_effects T src (rs1 ++ bad :: rs2) =
      apply_all_effects T
        (draw_circle_border bad (apply_all_effects T src rs1)) rs2 := by
  unfold apply_all_effects
  rw [List.foldl_append, List.foldl_cons]
  have hskip : apply_effect T (apply_all_effects T src rs1) bad =
      apply_all_effects T src rs1 := by
    cases hm : bad.mode
    case outline => simp [apply_effect, hm]
    all_goals
      rw [hm] at h
      simp [apply_effect, hm, h]
  unfold apply_all_effects at hskip
  rw [hskip]

/-- C4 witness: a raising transform on `cBad` over the empty prefix,
with a darken region still composited afterwards. -/
theorem C4_failing_region_skipped_witness :
    noTransform cBad.mode (apply_all_effects noTransform blackImage []) = none ∧
    apply_all_effects noTransform blackImage ([] ++ cBad :: [cA]) =
      apply_all_effects noTransform
        (draw_circle_border cBad (apply_all_effects noTransform blackImage []))
        [cA] :=
  ⟨rfl, C4_failing_region_skipped noTransform blackImage [] [cA] cBad rfl⟩

/-- C4 counterexample: with every transform raising, the failing blur
region's outline pixel `(16, 10)` is nevertheless drawn in the blur
border color — refuting that a failing region's circle outline is not
drawn. -/
theorem C4_counterexample :
    noTransform cBad.mode blackImage = none ∧
    apply_all_effects noTransform blackImage [cBad] (16, 10) =
      modeColor cBad.mode ∧
    apply_all_effects noTransform blackImage [cBad] (16, 10) ≠
      blackImage (16, 10) := by
  refine ⟨rfl, by decide, by decide⟩

/-- A successful candidate search returns a rectangle that passes
`_check_label_collision` against every previously placed rectangle. -/
theorem search_label_position_not_collide
    {cen : ℤ × ℤ} {radius text_w text_h baseline padding : ℤ}
    {image_size : ℤ × ℤ} {existing : List LabelRect} {res : ℤ × ℤ × LabelRect}
    (h : search_label_position cen radius text_w text_h baseline padding
        image_size existing = some res) :
    check_label_collision res.2.2 existing = false := by
  unfold search_label_position at h
  obtain ⟨pos, hmem, hpos⟩ := List.exists_of_findSome?_eq_some h
  dsimp only at hpos
  split at hpos
  · rename_i hc
    rw [Bool.and_eq_true] at hc
    obtain ⟨h1, h2⟩ := hc
    injection hpos with he
    rw [← he]
    simpa using h2
  · simp at hpos

/-- Invariant of the `_draw_all_labels_smart` loop: when every placement
comes from the candidate search, each placed rectangle passes the
collision check against all rectangles already placed before it
(`existing` from the enclosing context plus the earlier placements of
this run). -/
theorem draw_labels_aux_no_collision (measure : TextMeasure) (sz : ℤ × ℤ)
    (sc : ℚ) (th : ℕ) :
    ∀ (cs : List Region) (idx : ℕ) (existing : List LabelRect),
      (∀ pl ∈ draw_labels_aux measure sz sc th idx existing cs,
          pl.from_search = true) →
      ∀ (k : ℕ) (r : LabelRect),
        ((draw_labels_aux measure sz sc th idx existing cs).map
            LabelPlacement.rect)[k]? = some r →
        check_label_collision r
          (existing ++ ((draw_labels_aux measure sz sc th idx existing cs).map
              LabelPlacement.rect).take k) = false := by
  intro cs
  induction cs with
  | nil =>
      intro idx existing _ k r hr
      simp [draw_labels_aux] at hr
  | cons c rest ih =>
      intro idx existing h k r hr
      by_cases hl : c.label = ""
      · simp only [draw_labels_aux, if_pos hl] at h hr ⊢
        exact ih (idx + 1) existing h k r hr
      · simp only [draw_labels_aux, if_neg hl] at h hr ⊢
        have hhead := h _ (List.mem_cons_self _ _)
        obtain ⟨res0, hs⟩ := Option.isSome_iff_exists.mp hhead
        have hfind : find_non_overlapping_position c.center c.radius
            (measure (full_label_text idx c) sc th).1
            (measure (full_label_text idx c) sc th).2.1
            (measure (full_label_text idx c) sc th).2.2
            (label_padding sc) sz existing = res0 := by
          unfold find_non_overlapping_position
          rw [hs]
        rcases k with _ | k
        · simp only [List.map_cons, List.getElem?_cons_zero,
            Option.some.injEq] at hr
          subst hr
          simp only [List.take_zero, List.append_nil]
          rw [hfind]
          exact search_label_position_not_collide hs
        · simp only [List.map_cons, List.getElem?_cons_succ] at hr
          have htail : ∀ pl ∈ draw_labels_aux measure sz sc th (idx + 1)
              (existing ++ [(find_non_overlapping_position c.center c.radius
                (measure (full_label_text idx c) sc th).1
                (measure (full_label_text idx c) sc th).2.1
                (measure (full_label_text idx c) sc th).2.2
                (label_padding sc) sz existing).2.2]) rest,
              pl.from_search = true :=
            fun pl hpl => h pl (List.mem_cons_of_mem _ hpl)
          have hrec := ih (idx + 1) _ htail k r hr
          simp only [List.map_cons, List.take_succ_cons]
          rw [List.append_cons]
          exact hrec

/-- C6: in a redraw in which every label placement is produced by the
candidate search (the formalization of "label area small relative to the
image": the last-resort fallback of step 4 is never needed), each placed
rectangle passes the collision test against every rectangle placed
earlier in the same redraw, and consequently no two placed rectangles
overlap within the 5px buffer. -/
theorem C6_label_collision_freedom (measure : TextMeasure)
    (image_size : ℤ × ℤ) (cs : List Region)
    (h : ∀ pl ∈ draw_all_labels_smart measure image_size true cs,
        pl.from_search = true) :
    (∀ (k : ℕ) (r : LabelRect),
      ((draw_all_labels_smart measure image_size true cs).map
          LabelPlacement.rect)[k]? = some r →
      check_label_collision r
        (((draw_all_labels_smart measure image_size true cs).map
            LabelPlacement.rect).take k) = false) ∧
    List.Pairwise (fun r1 r2 => rects_collide r2 r1 = false)
      ((draw_all_labels_smart measure image_size true cs).map
        LabelPlacement.rect) := by
  have hunf : draw_all_labels_smart measure image_size true cs =
      draw_labels_aux measure image_size
        (get_dynamic_label_params image_size).1
        (get_dynamic_label_params image_size).2 1 [] cs := rfl
  rw [hunf] at h
  have hmain := draw_labels_aux_no_collision measure image_size
      (get_dynamic_label_params image_size).1
      (get_dynamic_label_params image_size).2 cs 1 [] h
  constructor
  · intro k r hr
    rw [hunf] at hr ⊢
    simpa using hmain k r hr
  · rw [hunf]
    rw [List.pairwise_iff_getElem]
    intro i j hi hj hij
    have hj' := List.getElem?_eq_getElem hj
    have hcheck := hmain j _ hj'
    rw [List.nil_append] at hcheck
    unfold check_label_collision at hcheck
    rw [List.any_eq_false] at hcheck
    have h1 : i < ((List.map LabelPlacement.rect
        (draw_labels_aux measure image_size
          (get_dynamic_label_params image_size).1
          (get_dynamic_label_params image_size).2 1 [] cs)).take j).length := by
      rw [List.length_take]
      omega
    have h2 := List.getElem_mem h1
    rw [List.getElem_take] at h2
    have := hcheck _ h2
    simpa using this

/-- Concrete evaluation of a 500×500 redraw over one unlabeled and two
labeled regions: the unlabeled region is skipped, `cLab` (store
position 2) takes the first candidate above its circle, and `cLab2`
(store position 3) is pushed below its circle because the first
candidate collides with `cLab`'s rectangle. -/
theorem draw_labels_smart_eval :
    draw_all_labels_smart measFix (500, 500) true [cA, cLab, cLab2] =
      [plFace, plEye] := by
  have hparams : get_dynamic_label_params (500, 500) = (1 / 2, 2) := by
    norm_num [get_dynamic_label_params]
  have hpad : label_padding (1 / 2) = 4 := by
    norm_num [label_padding, pyInt]
  have hs1 : search_label_position (200, 200) 50 40 10 3 4 (500, 500) [] =
      some (150, 129, ⟨146, 115, 194, 136⟩) := by decide
  have hs2 : search_label_position (210, 200) 50 40 10 3 4 (500, 500)
      [⟨146, 115, 194, 136⟩] = some (160, 280, ⟨156, 266, 204, 287⟩) := by
    decide
  have htext2 : full_label_text 2 cLab = "#2 [BLU] face" := by decide
  have htext3 : full_label_text 3 cLab2 = "#3 [HIG] eye" := by decide
  unfold draw_all_labels_smart
  rw [hparams]
  simp only [draw_labels_aux, cA, cLab, cLab2, measFix, htext2, htext3, hpad,
    find_non_overlapping_position, hs1, hs2, plFace, plEye]
  simp [modeColor, hs1, hs2, plFace, plEye]
  exact ⟨htext2, htext3⟩

/-- C6 witness: in the concrete 500×500 redraw of
`draw_labels_smart_eval`, where both placements come from the search,
the two placed rectangles do not overlap within the buffer. -/
theorem C6_label_collision_freedom_witness :
    List.Pairwise (fun r1 r2 => rects_collide r2 r1 = false)
      ((draw_all_labels_smart measFix (500, 500) true [cA, cLab, cLab2]).map
        LabelPlacement.rect) :=
  (C6_label_collision_freedom measFix (500, 500) [cA, cLab, cLab2]
    (by simp [draw_labels_smart_eval, plFace, plEye])).2

/-- Indices in `enumFrom n cs` are at least `n`. -/
theorem enumFrom_le_idx {n : ℕ} {cs : List Region} {ic : ℕ × Region}
    (h : ic ∈ enumFrom n cs) : n ≤ ic.1 := by
  induction cs generalizing n with
  | nil => cases h
  | cons c rest ih =>
      rcases List.mem_cons.mp h with h | h
      · rw [h]
      · have := ih h
        omega

/-- The 1-based positions in `enumFrom` determine the region: two
entries with the same index are the same entry. -/
theorem enumFrom_idx_inj {n : ℕ} {cs : List Region} {i : ℕ} {c c' : Region}
    (h1 : (i, c) ∈ enumFrom n cs) (h2 : (i, c') ∈ enumFrom n cs) : c = c' := by
  induction cs generalizing n with
  | nil => cases h1
  | cons a rest ih =>
      rcases List.mem_cons.mp h1 with h1 | h1 <;>
        rcases List.mem_cons.mp h2 with h2 | h2
      · rw [Prod.mk.injEq] at h1 h2
        rw [h1.2, h2.2]
      · rw [Prod.mk.injEq] at h1
        have := enumFrom_le_idx h2
        omega
      · rw [Prod.mk.injEq] at h2
        have := enumFrom_le_idx h1
        omega
      · exact ih h1 h2

/-- The placements of one run of the label loop are exactly the labeled
entries of the enumerated store, each with its 1-based position and
formatted text. -/
theorem draw_labels_aux_enum (measure : TextMeasure) (sz : ℤ × ℤ)
    (sc : ℚ) (th : ℕ) :
    ∀ (cs : List Region) (idx : ℕ) (existing : List LabelRect),
      (draw_labels_aux measure sz sc th idx existing cs).map
          (fun pl => (pl.idx, pl.text)) =
        ((enumFrom idx cs).filter (fun ic => ic.2.label ≠ "")).map
          (fun ic => (ic.1, full_label_text ic.1 ic.2)) := by
  intro cs
  induction cs with
  | nil => intro idx existing; rfl
  | cons c rest ih =>
      intro idx existing
      by_cases hl : c.label = ""
      · simp [draw_labels_aux, hl, enumFrom, ih]
      · simp [draw_labels_aux, hl, enumFrom, ih]

/-- C10: in a redraw, the drawn label callouts (rectangle, text and
connector) are exactly those of the regions with a non-empty label;
unlabeled regions get no placement at all, yet still occupy their
1-based position in the `enumerate` numbering, so a labeled region at
store position `n` is rendered with text `#n [...] label`. -/
theorem C10_unlabeled_numbering (measure : TextMeasure)
    (image_size : ℤ × ℤ) (cs : List Region) :
    (draw_all_labels_smart measure image_size true cs).map
        (fun pl => (pl.idx, pl.text)) =
      ((enumFrom 1 cs).filter (fun ic => ic.2.label ≠ "")).map
        (fun ic => (ic.1, full_label_text ic.1 ic.2)) ∧
    (∀ ic ∈ enumFrom 1 cs, ic.2.label = "" →
      ∀ pl ∈ draw_all_labels_smart measure image_size true cs,
        pl.idx ≠ ic.1) := by
  have hmap := draw_labels_aux_enum measure image_size
    (get_dynamic_label_params image_size).1
    (get_dynamic_label_params image_size).2 cs 1 []
  have hunf : draw_all_labels_smart measure image_size true cs =
      draw_labels_aux measure image_size
        (get_dynamic_label_params image_size).1
        (get_dynamic_label_params image_size).2 1 [] cs := rfl
  constructor
  · rw [hunf]
    exact hmap
  · intro ic hic hlab pl hpl heq
    have hmem : (pl.idx, pl.text) ∈
        ((enumFrom 1 cs).filter (fun ic => ic.2.label ≠ "")).map
          (fun ic => (ic.1, full_label_text ic.1 ic.2)) := by
      rw [← hmap]
      rw [hunf] at hpl
      exact List.mem_map_of_mem _ hpl
    obtain ⟨jc, hjc, hjeq⟩ := List.mem_map.mp hmem
    have hjfilter := List.mem_filter.mp hjc
    have hj1 : jc.1 = pl.idx := by
      have := congrArg Prod.fst hjeq
      simpa using this
    have hjenum : (ic.1, jc.2) ∈ enumFrom 1 cs := by
      have : jc = (ic.1, jc.2) := by
        rw [Prod.ext_iff]
        exact ⟨by rw [hj1, heq], rfl⟩
      rw [← this]
      exact hjfilter.1
    have hicenum : (ic.1, ic.2) ∈ enumFrom 1 cs := by
      simpa using hic
    have hsame := enumFrom_idx_inj hjenum hicenum
    have : jc.2.label ≠ "" := by simpa using hjfilter.2
    rw [hsame] at this
    exact this hlab

/-- C10 witness: in the concrete redraw of `draw_labels_smart_eval` the
unlabeled region at store position 1 has no placement, while `plFace`
(store position 2) is drawn with prefix `#2`. -/
theorem C10_unlabeled_numbering_witness :
    cA.label = "" ∧
    (1, cA) ∈ enumFrom 1 [cA, cLab, cLab2] ∧
    plFace ∈ draw_all_labels_smart measFix (500, 500) true [cA, cLab, cLab2] ∧
    plFace.idx ≠ 1 :=
  ⟨rfl, by decide,
   by rw [draw_labels_smart_eval]; exact List.mem_cons_self _ _,
   (C10_unlabeled_numbering measFix (500, 500) [cA, cLab, cLab2]).2
     (1, cA) (by decide) rfl plFace
     (by rw [draw_labels_smart_eval]; exact List.mem_cons_self _ _)⟩

/-- C7 (amended): the mode-switch (`1`-`7`), undo (`u`), clear-all (`c`)
and label-edit (`e`) commands are consumed as label text while in
`LabelInput` (store, mode and flags unchanged); outside `LabelInput`
they are accepted and leave the drawing/label-input/panning flags
unchanged, with label-edit running its blocking sub-loop and returning
to `Idle` on ENTER.  The key dispatch checks only the label-input flag,
so "outside `LabelInput`" includes the `Drawing` and `Panning` states —
not only `Idle`. -/
theorem C7_command_keys (T : TransformFamily) (ext : ExternalOps)
    (s : EditorState) :
    (∀ key : ℕ, s.quitting = false → s.label_input_mode = true →
      (key = 99 ∨ key = 67 ∨ key = 117 ∨ key = 85 ∨ key = 101 ∨ key = 69 ∨
        (49 ≤ key ∧ key ≤ 55)) →
      proc_key T ext s key =
        { s with current_label := s.current_label.push (Char.ofNat key) }) ∧
    (s.quitting = false → s.label_input_mode = false →
      ((proc_key T ext s 99).circles = [] ∧
       (proc_key T ext s 99).drawing = s.drawing ∧
       (proc_key T ext s 99).label_input_mode = false ∧
       (proc_key T ext s 99).is_panning = s.is_panning) ∧
      ((proc_key T ext s 117).circles = s.circles.dropLast ∧
       (proc_key T ext s 117).drawing = s.drawing ∧
       (proc_key T ext s 117).label_input_mode = false ∧
       (proc_key T ext s 117).is_panning = s.is_panning) ∧
      (∀ key : ℕ, 49 ≤ key → key ≤ 55 →
        (proc_key T ext s key).current_mode =
          editModeList.getD (key - 49) s.current_mode ∧
        (proc_key T ext s key).circles = s.circles ∧
        (proc_key T ext s key).drawing = s.drawing ∧
        (proc_key T ext s key).label_input_mode = false ∧
        (proc_key T ext s key).is_panning = s.is_panning) ∧
      (s.circles = [] → proc_key T ext s 101 = s) ∧
      (∀ last : Region, s.circles.getLast? = some last →
        (run_keys T ext s [101, 13]).label_input_mode = false ∧
        (run_keys T ext s [101, 13]).drawing = s.drawing ∧
        (run_keys T ext s [101, 13]).is_panning = s.is_panning ∧
        (run_keys T ext s [101, 13]).circles =
          s.circles.dropLast ++ [{ last with label := pyStrip last.label }])) := by
  constructor
  · intro key hq hli hkey
    rcases hkey with h | h | h | h | h | h | ⟨h1, h2⟩
    · subst h; simp [proc_key, hq, hli]
    · subst h; simp [proc_key, hq, hli]
    · subst h; simp [proc_key, hq, hli]
    · subst h; simp [proc_key, hq, hli]
    · subst h; simp [proc_key, hq, hli]
    · subst h; simp [proc_key, hq, hli]
    · have hn27 : key ≠ 27 := by omega
      have hn13 : key ≠ 13 := by omega
      have hn8 : key ≠ 8 := by omega
      have h32 : 32 ≤ key := by omega
      have h126 : key ≤ 126 := by omega
      simp [proc_key, hq, hli, hn27, hn13, hn8, h32, h126]
  · intro hq hl
    refine ⟨?_, ?_, ?_, ?_, ?_⟩
    · simp [proc_key, hq, hl]
    · rcases hgl : s.circles.getLast? with _ | last
      · rw [List.getLast?_eq_none_iff] at hgl
        simp [proc_key, hq, hl, hgl]
      · simp [proc_key, hq, hl, hgl]
    · intro key h49 h55
      have hk1 : ¬(key = 97 ∨ key = 65) := by omega
      have hk2 : ¬(key = 100 ∨ key = 68) := by omega
      have hk3 : ¬(key = 114 ∨ key = 82) := by omega
      have hk4 : key ≠ 115 := by omega
      have hk5 : key ≠ 83 := by omega
      have hk6 : ¬(key = 99 ∨ key = 67) := by omega
      have hk7 : ¬(key = 117 ∨ key = 85) := by omega
      have hk8 : ¬(key = 108 ∨ key = 76) := by omega
      have hk9 : ¬(key = 101 ∨ key = 69) := by omega
      have hk10 : ¬(key = 116 ∨ key = 84) := by omega
      have hk11 : ¬(key = 109 ∨ key = 77) := by omega
      have hk12 : ¬(key = 104 ∨ key = 72 ∨ key = 0) := by omega
      have hk13 : 49 ≤ key ∧ key ≤ 55 := ⟨h49, h55⟩
      simp [proc_key, hq, hl, hk1, hk2, hk3, hk4, hk5, hk6, hk7, hk8, hk9,
        hk10, hk11, hk12, hk13]
    · intro hempty
      simp [proc_key, hq, hl, hempty]
    · intro last hlast
      simp [run_keys, proc_key, hq, hl, hlast]

/-- C7 counterexample: from an idle state holding one region, a primary
button press enters `Drawing`; pressing undo (`u`) in that state is
accepted and pops the store — refuting that the undo command is
accepted only in `Idle` and never while `Drawing`. -/
theorem C7_counterexample :
    (mouse_callback { sampleState with circles := [cA] }
        .lbuttondown 200 100 0).drawing = true ∧
    (mouse_callback { sampleState with circles := [cA] }
        .lbuttondown 200 100 0).label_input_mode = false ∧
    (mouse_callback { sampleState with circles := [cA] }
        .lbuttondown 200 100 0).is_panning = false ∧
    (mouse_callback { sampleState with circles := [cA] }
        .lbuttondown 200 100 0).circles = [cA] ∧
    (proc_key idTransform extId
        (mouse_callback { sampleState with circles := [cA] }
          .lbuttondown 200 100 0) 117).circles = [] :=
  ⟨rfl, rfl, rfl, rfl, rfl⟩

/-- C7 witness: undo from the not-in-label-input state with one region
empties the store, and the clear key inside label input is consumed as
the character `c`. -/
theorem C7_command_keys_witness :
    ({ sampleState with circles := [cA] } : EditorState).label_input_mode
      = false ∧
    (proc_key idTransform extId
        { sampleState with circles := [cA] } 117).circles = [] ∧
    proc_key idTransform extId
        { sampleState with label_input_mode := true } 99 =
      { sampleState with label_input_mode := true,
                         current_label := "".push (Char.ofNat 99) } :=
  ⟨rfl,
   by
    have h := (C7_command_keys idTransform extId
      { sampleState with circles := [cA] }).2 rfl rfl
    exact h.2.1.1,
   by
    have h := (C7_command_keys idTransform extId
      { sampleState with label_input_mode := true }).1 99 rfl rfl (Or.inl rfl)
    exact h⟩
